import Mathlib

/-!
Verification of the gophertalk fastapi backend core: auth service
(`src/services/auth_service.py`) and post controller
(`src/controllers/post_controller.py`), shallowly embedded in Lean.
-/

namespace GopherTalk

/-- A user record as held by the credential store (table row with an
id assigned by the store). -/
structure User where
  id : Nat
  user_name : String
  password_hash : String
  first_name : String
  last_name : String
deriving Repr, DecidableEq

/-- The data passed to `create_user` by `register` (the `user_data`
dict built in `auth_service.py`, lines 29-34). -/
structure UserData where
  user_name : String
  password_hash : String
  first_name : String
  last_name : String
deriving Repr, DecidableEq

/-- The credential store: user rows plus the next id the store will
assign. `get_user_by_username` and `create_user` (from
`repositories.user_repository`) act on it. -/
structure CredStore where
  users : List User
  next_id : Nat
deriving Repr

/-- The password hasher capability (bcrypt in the source).
`hashpw` folds the generated salt into one deterministic function of
the plaintext; `checkpw` verifies a plaintext against a stored hash. -/
structure Hasher where
  hashpw : String → String
  checkpw : String → String → Bool

/-- `get_user_by_username`: lookup by the unique username. -/
def get_user_by_username (s : CredStore) (name : String) : Option User :=
  s.users.find? (fun u => u.user_name == name)

/-- The store-level error raised by `create_user` on a duplicate
username (`psycopg.errors.UniqueViolation`). -/
inductive StoreError where
  | uniqueViolation
deriving Repr, DecidableEq

/-- `create_user`: inserts a new user row, enforcing username
uniqueness; assigns the next free id. -/
def create_user (s : CredStore) (d : UserData) :
    Except StoreError (User × CredStore) :=
  if s.users.any (fun u => u.user_name == d.user_name) then
    .error .uniqueViolation
  else
    let u : User :=
      { id := s.next_id, user_name := d.user_name,
        password_hash := d.password_hash,
        first_name := d.first_name, last_name := d.last_name }
    .ok (u, { users := s.users ++ [u], next_id := s.next_id + 1 })

/-- The `ValueError`s raised by the auth service, one constructor per
raise site, carrying the source's message. -/
inductive AuthErr where
  | userNotFound
  | wrongPassword
  | userAlreadyExists
deriving Repr, DecidableEq

/-- The message string of each auth-service `ValueError`. -/
def AuthErr.message : AuthErr → String
  | .userNotFound => "User not found"
  | .wrongPassword => "Wrong password"
  | .userAlreadyExists => "User already exists"

/-- Process-wide token configuration (module constants of
`auth_service.py`, lines 9-12). -/
structure Config where
  access_secret : String
  refresh_secret : String
  access_expires : Int
  refresh_expires : Int
deriving Repr, DecidableEq

/-- Decimal digit accumulation for `str_to_int`. -/
def parseNatAux : List Char → Nat → Option Nat
  | [], acc => some acc
  | c :: cs, acc =>
    if c.isDigit then parseNatAux cs (acc * 10 + (c.toNat - 48)) else none

/-- A non-empty all-digit run, read as a natural number. -/
def parseNat : List Char → Option Nat
  | [] => none
  | cs => parseNatAux cs 0

/-- Python's `int(s)` on a decimal string: an optional sign followed
by a non-empty digit run; anything else raises (here: `none`). -/
def str_to_int (s : String) : Option Int :=
  match s.data with
  | '-' :: cs => (parseNat cs).map (fun n => -(n : Int))
  | '+' :: cs => (parseNat cs).map (fun n => (n : Int))
  | cs => (parseNat cs).map (fun n => (n : Int))

/-- Reading the configuration from the environment:
`ACCESS_TOKEN_SECRET` (default `"dev_secret"`),
`REFRESH_TOKEN_SECRET` (default `"dev_refresh"`),
`ACCESS_TOKEN_EXPIRES` (default `"3600"`),
`REFRESH_TOKEN_EXPIRES` (default `"86400"`); the two expiry strings go
through `int(...)`, which fails on a non-integer string. -/
def loadConfig (env : String → Option String) : Option Config := do
  let ae ← str_to_int ((env "ACCESS_TOKEN_EXPIRES").getD "3600")
  let re ← str_to_int ((env "REFRESH_TOKEN_EXPIRES").getD "86400")
  pure { access_secret := (env "ACCESS_TOKEN_SECRET").getD "dev_secret",
         refresh_secret := (env "REFRESH_TOKEN_SECRET").getD "dev_refresh",
         access_expires := ae, refresh_expires := re }

/-- The configuration obtained when no recognized variable is set. -/
def defaultConfig : Config :=
  { access_secret := "dev_secret", refresh_secret := "dev_refresh",
    access_expires := 3600, refresh_expires := 86400 }

/-- The claim set of a JWT payload: `{"sub": ..., "exp": ...}`. -/
structure Claims where
  sub : String
  exp : Int
deriving Repr, DecidableEq

/-- A signed token, modelled as its payload together with the secret
and algorithm it was signed with (an unforgeable-signature model). -/
structure Token where
  claims : Claims
  secret : String
  alg : String
deriving Repr, DecidableEq

/-- `jwt.encode(payload, secret, algorithm)`. -/
def jwt_encode (c : Claims) (secret alg : String) : Token :=
  { claims := c, secret := secret, alg := alg }

/-- Errors of token verification. -/
inductive JwtError where
  | invalidToken
  | expiredToken
deriving Repr, DecidableEq

/-- Verification of a token against a secret and algorithm at time
`now`: the signature check fails unless secret and algorithm match;
an `exp` not in the future is rejected as expired. -/
def jwt_decode (t : Token) (secret alg : String) (now : Int) :
    Except JwtError Claims :=
  if t.secret == secret && t.alg == alg then
    if t.claims.exp ≤ now then .error .expiredToken
    else .ok t.claims
  else .error .invalidToken

/-- The pair returned by `generate_token_pair`. -/
structure TokenPair where
  access_token : Token
  refresh_token : Token
deriving Repr, DecidableEq

/-- `generate_token_pair(user_id)`: one `now = datetime.utcnow()`
(made explicit here), an access token
`{sub: str(user_id), exp: now + ACCESS_EXPIRES}` signed with
`ACCESS_SECRET`, a refresh token with `REFRESH_EXPIRES` and
`REFRESH_SECRET`, both under `"HS256"`. -/
def generate_token_pair (cfg : Config) (now : Int) (user_id : Nat) :
    TokenPair :=
  { access_token :=
      jwt_encode { sub := toString user_id, exp := now + cfg.access_expires }
        cfg.access_secret "HS256",
    refresh_token :=
      jwt_encode { sub := toString user_id, exp := now + cfg.refresh_expires }
        cfg.refresh_secret "HS256" }

/-- The login DTO: `{"user_name": ..., "password": ...}`. -/
structure LoginDTO where
  user_name : String
  password : String
deriving Repr, DecidableEq

/-- `login(dto)`: look the user up by username (`"User not found"` if
absent), check the password against the stored hash (`"Wrong
password"` if it does not verify), else mint a token pair for the
user's id. -/
def login (h : Hasher) (cfg : Config) (now : Int) (s : CredStore)
    (dto : LoginDTO) : Except AuthErr TokenPair :=
  match get_user_by_username s dto.user_name with
  | none => .error .userNotFound
  | some user =>
    if h.checkpw dto.password user.password_hash then
      .ok (generate_token_pair cfg now user.id)
    else
      .error .wrongPassword

/-- The registration DTO. -/
structure RegisterDTO where
  user_name : String
  password : String
  first_name : String
  last_name : String
deriving Repr, DecidableEq

/-- The `user_data` dict `register` builds before inserting: the
bcrypt hash goes in `password_hash`, the other fields are copied. -/
def register_user_data (h : Hasher) (dto : RegisterDTO) : UserData :=
  { user_name := dto.user_name,
    password_hash := h.hashpw dto.password,
    first_name := dto.first_name, last_name := dto.last_name }

/-- `register(dto)`: hash the password, insert through
`create_user`; a `UniqueViolation` from the store becomes
`"User already exists"`; on success mint a token pair for the new
user's id. Returns the updated store alongside the pair. -/
def register (h : Hasher) (cfg : Config) (now : Int) (s : CredStore)
    (dto : RegisterDTO) : Except AuthErr (TokenPair × CredStore) :=
  match create_user s (register_user_data h dto) with
  | .error .uniqueViolation => .error .userAlreadyExists
  | .ok (user, s') => .ok (generate_token_pair cfg now user.id, s')

/-- A post row with its denormalized engagement counters. -/
structure Post where
  id : Nat
  owner_id : Nat
  reply_to_id : Option Nat
  body : String
  view_count : Nat
  like_count : Nat
deriving Repr, DecidableEq

/-- The post store: post rows plus the engagement edges, each edge a
`(post_id, user_id)` pair. -/
structure PostStore where
  posts : List Post
  like_edges : List (Nat × Nat)
  view_edges : List (Nat × Nat)
deriving Repr

/-- Error of the post-service mutations. -/
inductive PostErr where
  | postNotFound
deriving Repr, DecidableEq

/-- The post with a given id, if any. -/
def find_post (s : PostStore) (post_id : Nat) : Option Post :=
  s.posts.find? (fun p => p.id == post_id)

/-- The like relation of a `(post, viewer)` pair: `true` means state
`Liked`, `false` means `NotLiked`. -/
def liked (s : PostStore) (post_id viewer_id : Nat) : Bool :=
  s.like_edges.contains (post_id, viewer_id)

/-- The like counter of a post, when the post exists. -/
def like_count_of (s : PostStore) (post_id : Nat) : Option Nat :=
  (find_post s post_id).map (fun p => p.like_count)

/-- Modelled from the spec: `like_post(post_id, user_id)` of
`services.post_service` (called by `like_post_handler`, absent from
the sources) — "fails with `PostNotFound` if absent; creates a
LikeEdge `(post_id, viewer_id)` if absent and increments
`like_count`; if the edge already exists this is a no-op
(idempotent), not an error". -/
def like_post (s : PostStore) (post_id viewer_id : Nat) :
    Except PostErr PostStore :=
  match find_post s post_id with
  | none => .error .postNotFound
  | some _ =>
    if s.like_edges.contains (post_id, viewer_id) then .ok s
    else
      .ok { s with
            like_edges := (post_id, viewer_id) :: s.like_edges,
            posts := s.posts.map (fun p =>
              if p.id == post_id then { p with like_count := p.like_count + 1 }
              else p) }

/-- The authenticated principal handed to every handler by
`Depends(get_current_user)`: the verified token subject. -/
structure AuthUser where
  sub : Nat
deriving Repr, DecidableEq

/-- The `PostFilterDTO` built by `get_all_posts_handler`. -/
structure PostFilterDTO where
  user_id : Nat
  limit : Int
  offset : Int
  reply_to_id : Option Int
  owner_id : Option Int
  search : Option String
deriving Repr, DecidableEq

/-- A rejected query parameter (FastAPI 422 on a violated `ge`
constraint). -/
inductive QueryErr where
  | validationError
deriving Repr, DecidableEq

/-- `Query(default=d, ge=lo)` semantics for a required-with-default
parameter: absent yields the default, present must satisfy the lower
bound. -/
def query_with_default (v : Option Int) (d lo : Int) : Except QueryErr Int :=
  match v with
  | none => .ok d
  | some x => if lo ≤ x then .ok x else .error .validationError

/-- `Query(default=None, ge=lo)` semantics for an optional parameter:
absent stays absent, present must satisfy the lower bound. -/
def query_optional (v : Option Int) (lo : Int) : Except QueryErr (Option Int) :=
  match v with
  | none => .ok none
  | some x => if lo ≤ x then .ok (some x) else .error .validationError

/-- The filter built by `get_all_posts_handler` (lines 18-36): query
parameters `limit` (default 100, ge 1), `offset` (default 0, ge 0),
`reply_to_id` (optional, ge 1), `owner_id` (optional, ge 1), `search`
(optional, unconstrained); `user_id` is `user.sub` from the
authenticated user. -/
def get_all_posts_filter (user : AuthUser)
    (limit offset reply_to_id owner_id : Option Int)
    (search : Option String) : Except QueryErr PostFilterDTO := do
  let l ← query_with_default limit 100 1
  let o ← query_with_default offset 0 0
  let r ← query_optional reply_to_id 1
  let ow ← query_optional owner_id 1
  pure { user_id := user.sub, limit := l, offset := o,
         reply_to_id := r, owner_id := ow, search := search }

/-! ### Helper definitions and lemmas -/

/-- A concrete hasher for witnesses: a deterministic stand-in for
bcrypt whose hashes are prefixed, so they never equal the plaintext. -/
def testHasher : Hasher :=
  { hashpw := fun p => "bcrypt$" ++ p,
    checkpw := fun p hsh => hsh == "bcrypt$" ++ p }

theorem except_bind_ok {ε α β : Type} (a : α) (f : α → Except ε β) :
    (Except.ok a : Except ε α) >>= f = f a := rfl

theorem except_bind_error {ε α β : Type} (e : ε) (f : α → Except ε β) :
    (Except.error e : Except ε α) >>= f = Except.error e := rfl

/-- Inversion of a successful `create_user`. -/
theorem create_user_ok_inv {s : CredStore} {d : UserData} {u : User}
    {s' : CredStore} (hc : create_user s d = .ok (u, s')) :
    u = ⟨s.next_id, d.user_name, d.password_hash, d.first_name, d.last_name⟩ ∧
    s' = ⟨s.users ++ [u], s.next_id + 1⟩ ∧
    s.users.any (fun w => w.user_name == d.user_name) = false := by
  unfold create_user at hc
  split at hc
  · exact absurd hc (by simp)
  · rename_i hany
    simp only [Except.ok.injEq, Prod.mk.injEq] at hc
    obtain ⟨hu, hs⟩ := hc
    subst hu
    exact ⟨rfl, hs.symm, by simpa using hany⟩

/-- `find?` over a fresh append: if no element of `l` matches the
name, the appended element (which does) is found. -/
theorem find?_append_fresh (l : List User) (name : String)
    (hl : l.any (fun w => w.user_name == name) = false)
    (u : User) (hu : u.user_name = name) :
    (l ++ [u]).find? (fun w => w.user_name == name) = some u := by
  induction l with
  | nil => simp [List.find?, hu]
  | cons a l ih =>
    simp only [List.any_cons, Bool.or_eq_false_iff] at hl
    simpa [List.find?, hl.1] using ih hl.2

/-! ### Claims about the auth service -/

/-- C4: a token pair's two tokens carry the same subject, and their
expiries are the single issuance instant plus the respective TTLs. -/
theorem token_pair_same_subject_same_instant (cfg : Config) (now : Int)
    (uid : Nat) :
    (generate_token_pair cfg now uid).access_token.claims.sub =
      (generate_token_pair cfg now uid).refresh_token.claims.sub ∧
    (generate_token_pair cfg now uid).access_token.claims.exp =
      now + cfg.access_expires ∧
    (generate_token_pair cfg now uid).refresh_token.claims.exp =
      now + cfg.refresh_expires :=
  ⟨rfl, rfl, rfl⟩

/-- C5: minting signs `{sub: user_id, exp: now + ttl}` payloads, the
access token with the access secret and the refresh token with the
refresh secret, both under `HS256`; when the two secrets differ, a
refresh token never verifies as an access token. -/
theorem token_pair_distinct_secrets (cfg : Config) (now : Int) (uid : Nat)
    (hsec : cfg.access_secret ≠ cfg.refresh_secret) :
    (generate_token_pair cfg now uid).access_token =
      jwt_encode ⟨toString uid, now + cfg.access_expires⟩
        cfg.access_secret "HS256" ∧
    (generate_token_pair cfg now uid).refresh_token =
      jwt_encode ⟨toString uid, now + cfg.refresh_expires⟩
        cfg.refresh_secret "HS256" ∧
    ∀ t : Int, jwt_decode (generate_token_pair cfg now uid).refresh_token
        cfg.access_secret "HS256" t = .error .invalidToken := by
  refine ⟨rfl, rfl, fun t => ?_⟩
  have h2 : cfg.refresh_secret ≠ cfg.access_secret := fun e => hsec e.symm
  simp [generate_token_pair, jwt_encode, jwt_decode, h2]

/-- Witness for C5 at the default configuration. -/
theorem token_pair_distinct_secrets_witness :
    jwt_decode (generate_token_pair defaultConfig 0 1).refresh_token
      defaultConfig.access_secret "HS256" 0 = .error .invalidToken :=
  (token_pair_distinct_secrets defaultConfig 0 1 (by decide)).2.2 0

/-- C1: `login` fails with `User not found` exactly when the username
is absent, fails with `Wrong password` exactly when the user exists
but the password does not verify, succeeds with a token pair for the
user's id when it does verify, and raises no other error. -/
theorem login_cases (h : Hasher) (cfg : Config) (now : Int)
    (s : CredStore) (dto : LoginDTO) :
    (get_user_by_username s dto.user_name = none →
      login h cfg now s dto = .error .userNotFound) ∧
    (∀ u, get_user_by_username s dto.user_name = some u →
      h.checkpw dto.password u.password_hash = false →
      login h cfg now s dto = .error .wrongPassword) ∧
    (∀ u, get_user_by_username s dto.user_name = some u →
      h.checkpw dto.password u.password_hash = true →
      login h cfg now s dto = .ok (generate_token_pair cfg now u.id)) ∧
    (∀ e, login h cfg now s dto = .error e →
      e = .userNotFound ∨ e = .wrongPassword) := by
  refine ⟨fun hn => by simp [login, hn],
    fun u hu hc => by simp [login, hu, hc],
    fun u hu hc => by simp [login, hu, hc], fun e he => ?_⟩
  unfold login at he
  rcases hu : get_user_by_username s dto.user_name with _ | u <;> rw [hu] at he
  · left
    exact (Except.error.injEq _ _ ▸ he).symm
  · by_cases hc : h.checkpw dto.password u.password_hash <;> simp [hc] at he
    exact Or.inr he.symm

/-- Witness for C1: an empty store rejects any login as not found. -/
theorem login_cases_witness :
    login testHasher defaultConfig 0 ⟨[], 0⟩ ⟨"alice", "pw"⟩ =
      .error .userNotFound :=
  (login_cases testHasher defaultConfig 0 ⟨[], 0⟩ ⟨"alice", "pw"⟩).1 rfl

/-- C2: `register` fails with `User already exists` exactly when the
store's insert reports a uniqueness violation, and otherwise returns
a token pair whose subject is the freshly assigned id of the inserted
user. -/
theorem register_conflict_iff (h : Hasher) (cfg : Config) (now : Int)
    (s : CredStore) (dto : RegisterDTO) :
    (register h cfg now s dto = .error .userAlreadyExists ↔
      create_user s (register_user_data h dto) = .error .uniqueViolation) ∧
    (∀ u s', create_user s (register_user_data h dto) = .ok (u, s') →
      register h cfg now s dto = .ok (generate_token_pair cfg now u.id, s') ∧
      (generate_token_pair cfg now u.id).access_token.claims.sub =
        toString u.id ∧
      u.id = s.next_id) := by
  constructor
  · rcases hc : create_user s (register_user_data h dto) with e | ⟨u, s'⟩
    · cases e
      simp [register, hc]
    · simp [register, hc]
  · intro u s' hc
    refine ⟨by simp [register, hc], rfl, ?_⟩
    have := (create_user_ok_inv hc).1
    rw [this]

/-- Witness for C2: registering into an empty store inserts id 0 and
returns a pair for it. -/
theorem register_conflict_iff_witness :
    register testHasher defaultConfig 0 ⟨[], 0⟩ ⟨"alice", "pw", "A", "L"⟩ =
      .ok (generate_token_pair defaultConfig 0 0,
        ⟨[⟨0, "alice", "bcrypt$pw", "A", "L"⟩], 1⟩) :=
  ((register_conflict_iff testHasher defaultConfig 0 ⟨[], 0⟩
      ⟨"alice", "pw", "A", "L"⟩).2
    ⟨0, "alice", "bcrypt$pw", "A", "L"⟩
    ⟨[⟨0, "alice", "bcrypt$pw", "A", "L"⟩], 1⟩ rfl).1

/-- C3: for fresh credentials, `register` then `login` with the same
credentials both succeed, and both access tokens verify to the same
subject — the id the store assigned at registration. -/
theorem register_then_login (h : Hasher) (cfg : Config)
    (now1 now2 t1 t2 : Int) (s : CredStore) (dto : RegisterDTO)
    (hck : h.checkpw dto.password (h.hashpw dto.password) = true)
    (hfresh : s.users.any (fun u => u.user_name == dto.user_name) = false)
    (ht1 : t1 < now1 + cfg.access_expires)
    (ht2 : t2 < now2 + cfg.access_expires) :
    ∃ pair1 s' pair2,
      register h cfg now1 s dto = .ok (pair1, s') ∧
      login h cfg now2 s' ⟨dto.user_name, dto.password⟩ = .ok pair2 ∧
      jwt_decode pair1.access_token cfg.access_secret "HS256" t1 =
        .ok ⟨toString s.next_id, now1 + cfg.access_expires⟩ ∧
      jwt_decode pair2.access_token cfg.access_secret "HS256" t2 =
        .ok ⟨toString s.next_id, now2 + cfg.access_expires⟩ := by
  have hcreate : create_user s (register_user_data h dto) =
      .ok (⟨s.next_id, dto.user_name, h.hashpw dto.password,
            dto.first_name, dto.last_name⟩,
           ⟨s.users ++ [⟨s.next_id, dto.user_name, h.hashpw dto.password,
            dto.first_name, dto.last_name⟩], s.next_id + 1⟩) := by
    simp [create_user, register_user_data, hfresh]
  refine ⟨generate_token_pair cfg now1 s.next_id,
    ⟨s.users ++ [⟨s.next_id, dto.user_name, h.hashpw dto.password,
      dto.first_name, dto.last_name⟩], s.next_id + 1⟩,
    generate_token_pair cfg now2 s.next_id,
    by simp [register, hcreate], ?_, ?_, ?_⟩
  · have hfind : get_user_by_username
        ⟨s.users ++ [⟨s.next_id, dto.user_name, h.hashpw dto.password,
          dto.first_name, dto.last_name⟩], s.next_id + 1⟩ dto.user_name =
        some ⟨s.next_id, dto.user_name, h.hashpw dto.password,
          dto.first_name, dto.last_name⟩ :=
      find?_append_fresh s.users dto.user_name hfresh _ rfl
    simp [login, hfind, hck]
  · have hexp : ¬ (now1 + cfg.access_expires ≤ t1) := by omega
    simp [generate_token_pair, jwt_encode, jwt_decode, hexp]
  · have hexp : ¬ (now2 + cfg.access_expires ≤ t2) := by omega
    simp [generate_token_pair, jwt_encode, jwt_decode, hexp]

/-- Witness for C3 at concrete credentials and the default
configuration. -/
theorem register_then_login_witness :
    ∃ pair1 s' pair2,
      register testHasher defaultConfig 0 ⟨[], 0⟩ ⟨"alice", "pw", "A", "L"⟩ =
        .ok (pair1, s') ∧
      login testHasher defaultConfig 10 s' ⟨"alice", "pw"⟩ = .ok pair2 ∧
      jwt_decode pair1.access_token defaultConfig.access_secret "HS256" 1 =
        .ok ⟨toString (0 : Nat), 0 + defaultConfig.access_expires⟩ ∧
      jwt_decode pair2.access_token defaultConfig.access_secret "HS256" 1 =
        .ok ⟨toString (0 : Nat), 10 + defaultConfig.access_expires⟩ :=
  register_then_login testHasher defaultConfig 0 10 1 1 ⟨[], 0⟩
    ⟨"alice", "pw", "A", "L"⟩ (by decide) rfl (by decide) (by decide)

/-- `find?` through the like-counter update map, which preserves ids. -/
theorem find?_map_like_update_gen (l : List Post) (pid : Nat) :
    (l.map (fun p => if p.id == pid then { p with like_count := p.like_count + 1 }
        else p)).find? (fun p => p.id == pid) =
      (l.find? (fun p => p.id == pid)).map
        (fun p => if p.id == pid then { p with like_count := p.like_count + 1 }
          else p) := by
  induction l with
  | nil => rfl
  | cons a l ih =>
    by_cases ha : a.id == pid
    · have ha' : a.id = pid := by simpa using ha
      simp [List.find?, ha, ha']
    · simp only [List.map_cons, List.find?]
      rw [if_neg (by simpa using ha)]
      simpa [ha] using ih

/-- C6: when the post exists and the viewer has not yet liked it,
calling `like_post` twice succeeds, the second call returns the state
unchanged, the like counter ends exactly one above its prior value,
and the like relation ends in state `Liked`. -/
theorem like_post_twice (s : PostStore) (pid vid : Nat) (p : Post)
    (hp : find_post s pid = some p) (hnl : liked s pid vid = false) :
    ∃ s', like_post s pid vid = .ok s' ∧
      like_post s' pid vid = .ok s' ∧
      like_count_of s pid = some p.like_count ∧
      like_count_of s' pid = some (p.like_count + 1) ∧
      liked s' pid vid = true := by
  have hp' : s.posts.find? (fun q => q.id == pid) = some p := hp
  have hpid : (p.id == pid) = true := by simpa using List.find?_some hp'
  have hcontains : s.like_edges.contains (pid, vid) = false := hnl
  have hfind2 : find_post { s with
      like_edges := (pid, vid) :: s.like_edges,
      posts := s.posts.map (fun q =>
        if q.id == pid then { q with like_count := q.like_count + 1 }
        else q) } pid =
      some { p with like_count := p.like_count + 1 } := by
    show List.find? (fun q => q.id == pid)
      (s.posts.map (fun q =>
        if q.id == pid then { q with like_count := q.like_count + 1 }
        else q)) = _
    rw [find?_map_like_update_gen, hp']
    show some (if (p.id == pid) = true then _ else p) = _
    rw [if_pos hpid]
  refine ⟨{ s with
      like_edges := (pid, vid) :: s.like_edges,
      posts := s.posts.map (fun q =>
        if q.id == pid then { q with like_count := q.like_count + 1 }
        else q) }, ?_, ?_, ?_, ?_, ?_⟩
  · unfold like_post
    rw [hp, hcontains]
    rfl
  · unfold like_post
    rw [hfind2]
    simp
  · simp [like_count_of, hp]
  · rw [like_count_of, hfind2]
    rfl
  · simp [liked]

/-- Witness for C6: liking a concrete post twice. -/
theorem like_post_twice_witness :
    ∃ s', like_post ⟨[⟨1, 1, none, "hi", 0, 0⟩], [], []⟩ 1 2 = .ok s' ∧
      like_post s' 1 2 = .ok s' ∧
      like_count_of ⟨[⟨1, 1, none, "hi", 0, 0⟩], [], []⟩ 1 = some 0 ∧
      like_count_of s' 1 = some (0 + 1) ∧
      liked s' 1 2 = true :=
  like_post_twice ⟨[⟨1, 1, none, "hi", 0, 0⟩], [], []⟩ 1 2
    ⟨1, 1, none, "hi", 0, 0⟩ rfl rfl

/-- A one-user credential store for the C7 counterexample. -/
def c7Store : CredStore := ⟨[⟨1, "alice", "bcrypt$secret", "A", "L"⟩], 2⟩

/-- C7 counterexample: with the same wrong password, login fails with
`Wrong password` when the username exists and `User not found` when it
does not — different errors with different messages, so the failure
outcome does reveal whether the username is registered. -/
theorem login_failure_reveals_username :
    login testHasher defaultConfig 0 c7Store ⟨"alice", "wrong"⟩ =
      .error .wrongPassword ∧
    login testHasher defaultConfig 0 c7Store ⟨"bob", "wrong"⟩ =
      .error .userNotFound ∧
    AuthErr.message .wrongPassword ≠ AuthErr.message .userNotFound := by
  refine ⟨rfl, rfl, by decide⟩

/-- C7 amended: login with a wrong password always fails, but the
error and its message depend on whether the username exists:
`User not found` when absent, `Wrong password` when present. -/
theorem login_wrong_password_always_fails (h : Hasher) (cfg : Config)
    (now : Int) (s : CredStore) (dto : LoginDTO) :
    (get_user_by_username s dto.user_name = none →
      login h cfg now s dto = .error .userNotFound ∧
      AuthErr.message .userNotFound = "User not found") ∧
    (∀ u, get_user_by_username s dto.user_name = some u →
      h.checkpw dto.password u.password_hash = false →
      login h cfg now s dto = .error .wrongPassword ∧
      AuthErr.message .wrongPassword = "Wrong password") :=
  ⟨fun hn => ⟨by simp [login, hn], rfl⟩,
    fun u hu hc => ⟨by simp [login, hu, hc], rfl⟩⟩

/-- Witness for the amended C7. -/
theorem login_wrong_password_always_fails_witness :
    login testHasher defaultConfig 0 ⟨[], 0⟩ ⟨"bob", "x"⟩ =
      .error .userNotFound ∧
    AuthErr.message .userNotFound = "User not found" :=
  (login_wrong_password_always_fails testHasher defaultConfig 0 ⟨[], 0⟩
    ⟨"bob", "x"⟩).1 rfl

/-- The environment of the C9 counterexample: only the spec-named TTL
options are set (in both casings). -/
def ttlEnv : String → Option String := fun k =>
  if k == "ACCESS_TOKEN_TTL_SECONDS" || k == "access_token_ttl_seconds" then
    some "7200"
  else if k == "REFRESH_TOKEN_TTL_SECONDS" ||
      k == "refresh_token_ttl_seconds" then
    some "172800"
  else none

/-- C9 counterexample: setting `access_token_ttl_seconds` /
`refresh_token_ttl_seconds` (either casing) leaves both TTLs at their
defaults — those option names are not the ones the code reads. -/
theorem config_ttl_option_names_not_recognized :
    loadConfig ttlEnv = some defaultConfig ∧
    defaultConfig.access_expires = 3600 ∧
    defaultConfig.refresh_expires = 86400 ∧
    (3600 : Int) ≠ 7200 ∧ (86400 : Int) ≠ 172800 :=
  ⟨rfl, rfl, rfl, by decide, by decide⟩

/-- C9 amended: the configuration is read from `ACCESS_TOKEN_SECRET`,
`REFRESH_TOKEN_SECRET`, `ACCESS_TOKEN_EXPIRES` and
`REFRESH_TOKEN_EXPIRES`, with TTL defaults 3600 and 86400 seconds. -/
theorem load_config_spec (env : String → Option String) (ae re : Int)
    (hae : str_to_int ((env "ACCESS_TOKEN_EXPIRES").getD "3600") = some ae)
    (hre : str_to_int ((env "REFRESH_TOKEN_EXPIRES").getD "86400") = some re) :
    loadConfig env = some
      { access_secret := (env "ACCESS_TOKEN_SECRET").getD "dev_secret",
        refresh_secret := (env "REFRESH_TOKEN_SECRET").getD "dev_refresh",
        access_expires := ae, refresh_expires := re } ∧
    loadConfig (fun _ => none) = some defaultConfig := by
  refine ⟨?_, rfl⟩
  simp [loadConfig, hae, hre]

/-- Witness for the amended C9: the all-absent environment. -/
theorem load_config_spec_witness :
    loadConfig (fun _ => none) = some
      { access_secret := "dev_secret", refresh_secret := "dev_refresh",
        access_expires := 3600, refresh_expires := 86400 } :=
  (load_config_spec (fun _ => none) 3600 86400 rfl rfl).1

/-- The witness hasher's hashes never equal the plaintext. -/
theorem testHasher_hashpw_ne : ∀ p, testHasher.hashpw p ≠ p := by
  intro p hp
  have hlen : ("bcrypt$" ++ p).length = p.length := congrArg String.length hp
  rw [String.length_append] at hlen
  have h7 : "bcrypt$".length = 7 := rfl
  rw [h7] at hlen
  omega

/-- C10: the record handed to the store carries the hash of the
password (and the other dto fields unchanged) and, whenever hashing
is not the identity on the password, not the plaintext; every error
`register` or `login` can raise has one of three fixed constant
messages, none derived from the supplied password. -/
theorem register_password_hashed (h : Hasher) (cfg : Config) (now : Int)
    (s : CredStore) (dto : RegisterDTO) (ldto : LoginDTO)
    (hbc : ∀ p, h.hashpw p ≠ p) :
    register_user_data h dto =
      ⟨dto.user_name, h.hashpw dto.password, dto.first_name, dto.last_name⟩ ∧
    (register_user_data h dto).password_hash ≠ dto.password ∧
    (∀ e, register h cfg now s dto = .error e →
      e.message = "User already exists") ∧
    (∀ e, login h cfg now s ldto = .error e →
      e.message = "User not found" ∨ e.message = "Wrong password") := by
  refine ⟨rfl, hbc dto.password, ?_, ?_⟩
  · intro e he
    unfold register at he
    rcases hc : create_user s (register_user_data h dto) with er | ⟨u, s'⟩ <;>
      rw [hc] at he
    · cases er
      simp only [Except.error.injEq] at he
      subst he
      rfl
    · simp at he
  · intro e he
    unfold login at he
    rcases hu : get_user_by_username s ldto.user_name with _ | u <;>
      rw [hu] at he
    · simp only [Except.error.injEq] at he
      subst he
      left
      rfl
    · by_cases hcp : h.checkpw ldto.password u.password_hash <;>
        simp [hcp] at he
      subst he
      right
      rfl

/-- Witness for C10 at a concrete hasher and registration input. -/
theorem register_password_hashed_witness :
    (register_user_data testHasher ⟨"alice", "pw", "A", "L"⟩).password_hash ≠
      "pw" :=
  (register_password_hashed testHasher defaultConfig 0 ⟨[], 0⟩
    ⟨"alice", "pw", "A", "L"⟩ ⟨"alice", "pw"⟩ testHasher_hashpw_ne).2.1

/-- C8: full characterization of the handler's filter building —
`limit` accepted exactly when present and at least 1 (100 when
absent), `offset` exactly when present and at least 0 (0 when
absent), `reply_to_id`/`owner_id`/`search` optional, and `user_id`
always the authenticated user's subject. -/
theorem get_all_posts_filter_spec (user : AuthUser)
    (limit offset reply_to_id owner_id : Option Int)
    (search : Option String) :
    get_all_posts_filter user limit offset reply_to_id owner_id search =
      if (limit.all fun l => decide (1 ≤ l)) &&
          (offset.all fun o => decide (0 ≤ o)) &&
          (reply_to_id.all fun r => decide (1 ≤ r)) &&
          (owner_id.all fun w => decide (1 ≤ w)) then
        .ok ⟨user.sub, limit.getD 100, offset.getD 0,
             reply_to_id, owner_id, search⟩
      else .error .validationError := by
  cases limit <;> cases offset <;> cases reply_to_id <;> cases owner_id <;>
    simp [get_all_posts_filter, query_with_default, query_optional,
      except_bind_ok, except_bind_error, Option.all] <;>
    split_ifs <;>
    simp_all [except_bind_ok, except_bind_error]

end GopherTalk
